import Mathlib

/-
Shallow embedding of the two container types of the repository:
the Maybe (Optional) container of src/unnamed/part_001, the Result
container of src/src/core/result.ts, and the helper functions around
them (fromNullable, matchResult, safeHead). Each definition mirrors the
corresponding TypeScript class method; methods are modelled as functions
taking the receiver first.
-/

/-- The Maybe container of src/unnamed/part_001: variants Just (holding a
value) and Nothing (no payload). -/
inductive Maybe (α : Type) where
  | Just (value : α)
  | Nothing
deriving DecidableEq, Repr

/-- isJust of src/unnamed/part_001 lines 16-18 and 42-44: Just.isJust
returns true, Nothing.isJust returns false. -/
def Maybe.isJust : Maybe α → Bool
  | .Just _ => true
  | .Nothing => false

/-- map of src/unnamed/part_001 lines 28-30 and 54-56: Just.map returns
Just.of(fn(this.value)); Nothing.map returns new Nothing(). -/
def Maybe.map (m : Maybe α) (fn : α → β) : Maybe β :=
  match m with
  | .Just v => .Just (fn v)
  | .Nothing => .Nothing

/-- flatMap of src/unnamed/part_001 lines 24-26 and 50-52: Just.flatMap
returns fn(this.value); Nothing.flatMap returns new Nothing(). -/
def Maybe.flatMap (m : Maybe α) (fn : α → Maybe β) : Maybe β :=
  match m with
  | .Just v => fn v
  | .Nothing => .Nothing

/-- orElse of src/unnamed/part_001 lines 32-34 and 58-60: Just.orElse
returns this; Nothing.orElse returns handler(). The handler takes no
argument, modelled as a function from Unit. -/
def Maybe.orElse (m : Maybe α) (handler : Unit → Maybe α) : Maybe α :=
  match m with
  | .Just _ => m
  | .Nothing => handler ()

/-- getOrElse of src/unnamed/part_001 lines 36-38 and 62-64: Just.getOrElse
returns this.value; Nothing.getOrElse returns fallback. -/
def Maybe.getOrElse (m : Maybe α) (fallback : α) : α :=
  match m with
  | .Just v => v
  | .Nothing => fallback

/-- A JavaScript value of type T or one of the two absence sentinels,
null and undefined. The sentinels are distinct observable runtime values
(null === undefined is false). -/
inductive Nullable (α : Type) where
  | val (a : α)
  | null
  | undef
deriving DecidableEq, Repr

/-- fromNullable of src/unnamed/part_001 lines 67-69, exactly as written
in the source: value === null || value === undefined yields Just.of(value),
any other value yields Nothing.of(). Note the payload of the Just is the
sentinel itself, as in the source. -/
def fromNullable : Nullable α → Maybe (Nullable α)
  | .null => .Just .null
  | .undef => .Just .undef
  | .val _ => .Nothing

/-- The Result container of src/src/core/result.ts: variants Ok (holding
a success value) and Err (holding an error value). Both store their
payload in a field named value. -/
inductive Result (α ε : Type) where
  | Ok (value : α)
  | Err (value : ε)
deriving DecidableEq, Repr

/-- isOk of src/src/core/result.ts lines 16-18 and 48-50, exactly as
written in the source: Ok.isOk returns true, and Err.isOk ALSO returns
true (the source returns true in both classes). -/
def Result.isOk : Result α ε → Bool
  | .Ok _ => true
  | .Err _ => true

/-- map of src/src/core/result.ts lines 24-26 and 56-58: Ok.map returns
Ok.of(fn(this.value)); Err.map returns new Err(this.value). -/
def Result.map (r : Result α ε) (fn : α → β) : Result β ε :=
  match r with
  | .Ok v => .Ok (fn v)
  | .Err e => .Err e

/-- flatMap of src/src/core/result.ts lines 28-30 and 60-62: Ok.flatMap
returns fn(this.value); Err.flatMap returns new Err(this.value). -/
def Result.flatMap (r : Result α ε) (fn : α → Result β ε) : Result β ε :=
  match r with
  | .Ok v => fn v
  | .Err e => .Err e

/-- orElse of src/src/core/result.ts lines 32-34 and 64-66: Ok.orElse
returns this; Err.orElse returns fn(this.value). -/
def Result.orElse (r : Result α ε) (fn : ε → Result α ε) : Result α ε :=
  match r with
  | .Ok _ => r
  | .Err e => fn e

/-- getOrElse of src/src/core/result.ts lines 36-38 and 67-69:
Ok.getOrElse returns this.value; Err.getOrElse returns fallback. -/
def Result.getOrElse (r : Result α ε) (fallback : α) : α :=
  match r with
  | .Ok v => v
  | .Err _ => fallback

/-- Models the unchecked TypeScript cast (result as Ok).value inside
matchResult: at runtime the cast is erased and the value field of
whichever variant is actually present is read. It is well typed when the
two payload types coincide, which is the instantiation under which the
runtime behaviour is observed. -/
def castValue : Result α α → α
  | .Ok v => v
  | .Err e => e

/-- matchResult of src/src/core/result.ts lines 72-81: dispatches on
result.isOk(); the then branch calls match.Ok on (result as Ok).value and
the else branch calls match.Err on (result as Err).value. TypeScript
generics are erased at runtime, so the casts read the single value field;
we model the function at a common payload type where those reads are well
typed. -/
def matchResult (mOk : α → β) (mErr : α → β) (result : Result α α) : β :=
  if result.isOk then mOk (castValue result) else mErr (castValue result)

/-- JavaScript indexing list[0] as used by safeHead in src/unnamed/part_000
line 34: the first element when the array is non-empty, undefined when it
is empty. -/
def jsIndexZero : List α → Nullable α
  | [] => .undef
  | x :: _ => .val x

/-- safeHead of src/unnamed/part_000 line 34:
(list) => fromNullable(list[0]). -/
def safeHead (list : List α) : Maybe (Nullable α) :=
  fromNullable (jsIndexZero list)

/-- A JavaScript number outcome: an integer, or NaN. -/
inductive JSNum where
  | fin (n : Int)
  | nan
deriving DecidableEq, Repr

/-- The squaring function x => x * x of src/unnamed/part_000 line 25
applied to a possibly-absent value, with JavaScript arithmetic coercion:
numbers multiply normally, null coerces to 0 so null * null = 0, and
undefined * undefined = NaN. -/
def jsSquare : Nullable Int → JSNum
  | .val x => .fin (x * x)
  | .null => .fin 0
  | .undef => .nan

/-- The end-to-end pipeline of src/unnamed/part_000 line 35:
safeHead(list).map(square).getOrElse(0). -/
def headSquare (list : List Int) : JSNum :=
  ((safeHead list).map jsSquare).getOrElse (.fin 0)

/-! Theorems settling the claims. -/

/-- Claim C1 (code bug): the source fromNullable inverts the documented
check. Evaluated at the failing inputs: fromNullable(5) returns Nothing
(so isJust is false and getOrElse(0) returns 0, not 5), while
fromNullable(undefined) returns Just(undefined) with isJust true. -/
theorem fromNullable_inverted_eval :
    fromNullable (Nullable.val (5 : Int)) = Maybe.Nothing ∧
    (fromNullable (Nullable.val (5 : Int))).isJust = false ∧
    (fromNullable (Nullable.val (5 : Int))).getOrElse (Nullable.val 0) =
      Nullable.val 0 ∧
    fromNullable (Nullable.undef : Nullable Int) = Maybe.Just Nullable.undef ∧
    (fromNullable (Nullable.undef : Nullable Int)).isJust = true :=
  ⟨rfl, rfl, rfl, rfl, rfl⟩

/-- Claim C2 (code bug): the source Err.isOk returns true, contradicting
the specified contract that the failure variant answers false. Evaluated
on a concrete Err and, for contrast, a concrete Ok. -/
theorem err_isOk_eval :
    (Result.Err (7 : Int) : Result Int Int).isOk = true ∧
    (Result.Ok (7 : Int) : Result Int Int).isOk = true :=
  ⟨rfl, rfl⟩

/-- Claim C3 (code bug): because Err.isOk returns true, matchResult takes
the Ok branch on a Failure and invokes the Ok handler on the error
payload; the Err handler is never reached. With handlers v+1 and e-1,
both Err(7) and Ok(7) produce 8. -/
theorem matchResult_err_eval :
    matchResult (fun v => v + 1) (fun e => e - 1) (Result.Err (7 : Int)) = 8 ∧
    matchResult (fun v => v + 1) (fun e => e - 1) (Result.Ok (7 : Int)) = 8 :=
  ⟨rfl, rfl⟩

/-- Claim C4 (code bug): through the inverted fromNullable, the pipeline
safeHead(list).map(square).getOrElse(0) yields 0 on [4] (not 16, because
fromNullable(4) is Nothing) and NaN on [] (not 0, because
fromNullable(undefined) is Just(undefined) and undefined squared is NaN). -/
theorem headSquare_eval :
    headSquare [4] = JSNum.fin 0 ∧ headSquare [] = JSNum.nan :=
  ⟨rfl, rfl⟩

/-- Claim C5 (confirmed): for every pure fn, Just(v).map(fn) equals
Just(fn(v)), and Nothing.map(fn) equals Nothing for every fn whatsoever,
so the result never depends on fn and fn is never invoked on Nothing. -/
theorem maybe_map_spec {α β : Type} (v : α) (fn : α → β) :
    (Maybe.Just v).map fn = Maybe.Just (fn v) ∧
    (Maybe.Nothing : Maybe α).map fn = Maybe.Nothing :=
  ⟨rfl, rfl⟩

/-- Claim C6 (confirmed): flatMap chaining is associative for both
containers: c.flatMap(f).flatMap(g) equals c.flatMap(x =>
f(x).flatMap(g)) for every Maybe and every Result. -/
theorem flatMap_assoc {α β γ ε : Type} :
    (∀ (m : Maybe α) (f : α → Maybe β) (g : β → Maybe γ),
      (m.flatMap f).flatMap g = m.flatMap fun x => (f x).flatMap g) ∧
    (∀ (r : Result α ε) (f : α → Result β ε) (g : β → Result γ ε),
      (r.flatMap f).flatMap g = r.flatMap fun x => (f x).flatMap g) := by
  constructor
  · intro m f g
    cases m <;> rfl
  · intro r f g
    cases r <;> rfl

/-- Claim C7 (confirmed): orElse short-circuits on the good variant:
Just(v).orElse(supplier) and Ok(v).orElse(fn) return the container itself
for every supplier, so the supplier is never invoked; on the bad variant,
Nothing.orElse(supplier) returns supplier() and Err(e).orElse(fn)
returns fn(e). -/
theorem orElse_spec {α ε : Type} (v : α) (e : ε)
    (supplier : Unit → Maybe α) (fn : ε → Result α ε) :
    (Maybe.Just v).orElse supplier = Maybe.Just v ∧
    (Maybe.Nothing : Maybe α).orElse supplier = supplier () ∧
    (Result.Ok v : Result α ε).orElse fn = Result.Ok v ∧
    (Result.Err e : Result α ε).orElse fn = fn e :=
  ⟨rfl, rfl, rfl, rfl⟩

/-- Claim C8 (confirmed): getOrElse returns the contained value on the
good variant and the fallback on the bad variant, for both container
kinds, discarding any error payload. -/
theorem getOrElse_spec {α ε : Type} (v d : α) (e : ε) :
    (Maybe.Just v).getOrElse d = v ∧
    (Maybe.Nothing : Maybe α).getOrElse d = d ∧
    (Result.Ok v : Result α ε).getOrElse d = v ∧
    (Result.Err e : Result α ε).getOrElse d = d :=
  ⟨rfl, rfl, rfl, rfl⟩

/-- Claim C9 (confirmed): Err(e).map(fn) and Err(e).flatMap(fn) each
return Err carrying the same error e unchanged, for every fn, so fn is
never invoked and the error payload is not modified. -/
theorem err_frame {α β ε : Type} (e : ε)
    (fn : α → β) (fn2 : α → Result β ε) :
    (Result.Err e : Result α ε).map fn = Result.Err e ∧
    (Result.Err e : Result α ε).flatMap fn2 = Result.Err e :=
  ⟨rfl, rfl⟩

/-- Claim C10 (code bug): the source fromNullable does not treat the two
sentinels identically in an observable way: it returns Just(null) and
Just(undefined), and getOrElse distinguishes them, returning null in one
case and undefined in the other, two distinct runtime values. -/
theorem fromNullable_sentinels_eval :
    fromNullable (Nullable.null : Nullable Int) = Maybe.Just Nullable.null ∧
    fromNullable (Nullable.undef : Nullable Int) = Maybe.Just Nullable.undef ∧
    (fromNullable (Nullable.null : Nullable Int)).getOrElse (Nullable.val 0) =
      Nullable.null ∧
    (fromNullable (Nullable.undef : Nullable Int)).getOrElse (Nullable.val 0) =
      Nullable.undef ∧
    (Nullable.null : Nullable Int) ≠ Nullable.undef :=
  ⟨rfl, rfl, rfl, rfl, by decide⟩
